import Mathlib

set_option autoImplicit false

/-!
Verification development for the p2p-iot arrow-control system.

The TypeScript sources are embedded shallowly:
- JS `Map` objects become insertion-ordered association lists
  (`mapLookup`, `mapSet`, `mapDelete`, `mapHas` mirror `get`/`set`/`delete`/`has`);
- `Date.now()` becomes an explicit `now : Nat` argument to every operation
  that reads the clock;
- `generateToken()` (crypto.randomBytes(32).toString("hex"), a 64-character
  hex string) becomes a draw from an explicit supply `supply : Nat → String`
  indexed by a counter `rng` carried in the registry state; the hypothesis
  `∀ n, supply n ≠ ""` reflects that the hex encoding is never empty;
- optional / possibly-absent JS fields become `Option`, and JS truthiness
  tests (`!x`) on strings and numbers are modelled by `strTruthy` / `natTruthy`
  (empty string and 0 are falsy).
-/

/-- JS truthiness of an optional string: `undefined` and `""` are falsy. -/
def strTruthy : Option String → Bool
  | none => false
  | some s => s ≠ ""

/-- JS truthiness of an optional number: `undefined` and `0` are falsy. -/
def natTruthy : Option Nat → Bool
  | none => false
  | some n => n ≠ 0

/-- Lookup in an insertion-ordered association list (JS `Map.get`). -/
def mapLookup {α : Type} : List (String × α) → String → Option α
  | [], _ => none
  | (k, v) :: rest, key => if k = key then some v else mapLookup rest key

/-- JS `Map.has`. -/
def mapHas {α : Type} (l : List (String × α)) (key : String) : Bool :=
  (mapLookup l key).isSome

/-- JS `Map.set`: replace the binding in place if the key is present,
otherwise append at the end (preserving insertion order). -/
def mapSet {α : Type} : List (String × α) → String → α → List (String × α)
  | [], key, v => [(key, v)]
  | (k, w) :: rest, key, v =>
      if k = key then (k, v) :: rest else (k, w) :: mapSet rest key v

/-- JS `Map.delete`: remove the binding for the key. -/
def mapDelete {α : Type} : List (String × α) → String → List (String × α)
  | [], _ => []
  | (k, v) :: rest, key =>
      if k = key then mapDelete rest key else (k, v) :: mapDelete rest key

/-- Connection status of a device, from shared/types.ts `ConnectionStatus`. -/
inductive ConnectionStatus
  | disconnected
  | connecting
  | connected
  | paired
  | error
  deriving Repr, DecidableEq

/-- Peer identity, from shared/types.ts `DeviceInfo`. The `type` field carries
the raw wire string (the enum values are "controller" / "target"). -/
structure DeviceInfo where
  id : String
  name : String
  ip : String
  mac : Option String
  type : String
  supportedCommands : List String
  deriving Repr, DecidableEq

/-- Registry-owned device record, from controller/deviceRegistry.ts. -/
structure RegisteredDevice where
  deviceInfo : DeviceInfo
  status : ConnectionStatus
  lastSeen : Nat
  firstSeen : Nat
  connectionId : Option String
  authToken : Option String
  paired : Bool
  pairingToken : Option String
  pairingExpiration : Option Nat
  deriving Repr, DecidableEq

/-- State of the `DeviceRegistry` class: the three JS Maps plus the index of
the next token to draw from the random supply. -/
structure DeviceRegistry where
  devices : List (String × RegisteredDevice)
  ipToIdMap : List (String × String)
  macToIdMap : List (String × String)
  rng : Nat
  deriving Repr, DecidableEq

def initialRegistry : DeviceRegistry :=
  { devices := [], ipToIdMap := [], macToIdMap := [], rng := 0 }

/-- Object spread `{...oldInfo, ...newInfo}`: every required field of the new
info overwrites the old; `mac` is the only optional key, and an absent key does
not overwrite under JS spread. -/
def mergeDeviceInfo (old upd : DeviceInfo) : DeviceInfo :=
  { id := upd.id, name := upd.name, ip := upd.ip,
    mac := match upd.mac with | some m => some m | none => old.mac,
    type := upd.type, supportedCommands := upd.supportedCommands }

/-- The `existingId` computed by `registerDevice` when the id is new: the ip
index is consulted first, the mac index only if the ip test fails
(`if (deviceInfo.ip && ipToIdMap.has(...)) ... else if (deviceInfo.mac && ...)`). -/
def lookupExistingId (st : DeviceRegistry) (info : DeviceInfo) : Option String :=
  if info.ip ≠ "" ∧ mapHas st.ipToIdMap info.ip then
    mapLookup st.ipToIdMap info.ip
  else
    match info.mac with
    | some m => if m ≠ "" ∧ mapHas st.macToIdMap m then mapLookup st.macToIdMap m else none
    | none => none

/-- Tail of `registerDevice`: create and index a brand-new device record.
`generateToken()` is drawn only when `requirePairing` is true; the pairing
window is 5 minutes. -/
def registerNewDevice (supply : Nat → String) (st : DeviceRegistry) (info : DeviceInfo)
    (requirePairing : Bool) (now : Nat) : RegisteredDevice × DeviceRegistry :=
  let newDevice : RegisteredDevice :=
    { deviceInfo := info, status := .disconnected, lastSeen := now, firstSeen := now,
      connectionId := none, authToken := none, paired := false,
      pairingToken := if requirePairing then some (supply st.rng) else none,
      pairingExpiration := if requirePairing then some (now + 5 * 60 * 1000) else none }
  let devices1 := mapSet st.devices info.id newDevice
  let ip1 := if info.ip ≠ "" then mapSet st.ipToIdMap info.ip info.id else st.ipToIdMap
  let mac1 :=
    match info.mac with
    | some m => if m ≠ "" then mapSet st.macToIdMap m info.id else st.macToIdMap
    | none => st.macToIdMap
  (newDevice,
   { devices := devices1, ipToIdMap := ip1, macToIdMap := mac1,
     rng := if requirePairing then st.rng + 1 else st.rng })

/-- `DeviceRegistry.registerDevice(deviceInfo, requirePairing = true)`. -/
def registerDevice (supply : Nat → String) (st : DeviceRegistry) (info : DeviceInfo)
    (requirePairing : Bool) (now : Nat) : RegisteredDevice × DeviceRegistry :=
  match mapLookup st.devices info.id with
  | some device =>
      let d := { device with deviceInfo := mergeDeviceInfo device.deviceInfo info,
                             lastSeen := now }
      (d, { st with devices := mapSet st.devices info.id d })
  | none =>
      match lookupExistingId st info with
      | some existingId =>
          -- the guard `if (existingId && this.devices.has(existingId))`:
          -- a falsy (empty-string) existingId skips migration
          if existingId = "" then registerNewDevice supply st info requirePairing now
          else
          match mapLookup st.devices existingId with
          | some device =>
              let devices1 := mapDelete st.devices existingId
              let ip1 :=
                if device.deviceInfo.ip ≠ "" then mapDelete st.ipToIdMap device.deviceInfo.ip
                else st.ipToIdMap
              let mac1 :=
                match device.deviceInfo.mac with
                | some m => if m ≠ "" then mapDelete st.macToIdMap m else st.macToIdMap
                | none => st.macToIdMap
              let updatedDevice :=
                { device with deviceInfo := mergeDeviceInfo device.deviceInfo info,
                              lastSeen := now }
              let devices2 := mapSet devices1 info.id updatedDevice
              let ip2 := if info.ip ≠ "" then mapSet ip1 info.ip info.id else ip1
              let mac2 :=
                match info.mac with
                | some m => if m ≠ "" then mapSet mac1 m info.id else mac1
                | none => mac1
              (updatedDevice,
               { st with devices := devices2, ipToIdMap := ip2, macToIdMap := mac2 })
          | none => registerNewDevice supply st info requirePairing now
      | none => registerNewDevice supply st info requirePairing now

/-- `DeviceRegistry.connectDevice(deviceId, connectionId)`. -/
def connectDevice (st : DeviceRegistry) (deviceId connId : String) (now : Nat) :
    Option RegisteredDevice × DeviceRegistry :=
  match mapLookup st.devices deviceId with
  | none => (none, st)
  | some device =>
      let d := { device with
        status := if device.paired then ConnectionStatus.paired else ConnectionStatus.connected,
        connectionId := some connId, lastSeen := now }
      (some d, { st with devices := mapSet st.devices deviceId d })

/-- `DeviceRegistry.disconnectDevice(deviceId)`. -/
def disconnectDevice (st : DeviceRegistry) (deviceId : String) (now : Nat) :
    Option RegisteredDevice × DeviceRegistry :=
  match mapLookup st.devices deviceId with
  | none => (none, st)
  | some device =>
      let d := { device with
        status := ConnectionStatus.disconnected, connectionId := none, lastSeen := now }
      (some d, { st with devices := mapSet st.devices deviceId d })

/-- Structured result of a pairing / unpairing call. -/
structure PairResult where
  success : Bool
  device : Option RegisteredDevice
  error : Option String
  deriving Repr, DecidableEq

def pairFailure (e : String) : PairResult :=
  { success := false, device := none, error := some e }

/-- The expiry test `device.pairingExpiration && device.pairingExpiration <
Date.now()`: a falsy (absent or 0) expiration short-circuits to not-expired. -/
def pairingExpired (expiration : Option Nat) (now : Nat) : Bool :=
  match expiration with
  | some e => decide (e ≠ 0) && decide (e < now)
  | none => false

/-- `DeviceRegistry.pairDevice(deviceId, pairingToken)`. The truthiness test
`!device.pairingToken` treats both an absent and an empty token as unpairable;
the expiry test `device.pairingExpiration && expiration < Date.now()` skips a
falsy (0) expiration. -/
def pairDevice (supply : Nat → String) (st : DeviceRegistry) (deviceId pairingToken : String)
    (now : Nat) : PairResult × DeviceRegistry :=
  match mapLookup st.devices deviceId with
  | none => (pairFailure "Device not found", st)
  | some device =>
      match device.pairingToken with
      | none => (pairFailure "Device does not support pairing", st)
      | some pt =>
          if pt = "" then (pairFailure "Device does not support pairing", st)
          else if pt ≠ pairingToken then (pairFailure "Invalid pairing token", st)
          else if pairingExpired device.pairingExpiration now then
            (pairFailure "Pairing token expired", st)
          else
            let d := { device with
              authToken := some (supply st.rng), paired := true,
              pairingToken := none, pairingExpiration := none,
              status := if device.status = ConnectionStatus.connected then
                          ConnectionStatus.paired
                        else device.status }
            ({ success := true, device := some d, error := none },
             { st with devices := mapSet st.devices deviceId d, rng := st.rng + 1 })

/-- `DeviceRegistry.unpairDevice(deviceId)`. -/
def unpairDevice (supply : Nat → String) (st : DeviceRegistry) (deviceId : String)
    (now : Nat) : PairResult × DeviceRegistry :=
  match mapLookup st.devices deviceId with
  | none => (pairFailure "Device not found", st)
  | some device =>
      let d := { device with
        paired := false, authToken := none,
        pairingToken := some (supply st.rng),
        pairingExpiration := some (now + 5 * 60 * 1000),
        status := if device.status = ConnectionStatus.paired then
                    ConnectionStatus.connected
                  else device.status }
      ({ success := true, device := some d, error := none },
       { st with devices := mapSet st.devices deviceId d, rng := st.rng + 1 })

def getDeviceById (st : DeviceRegistry) (deviceId : String) : Option RegisteredDevice :=
  mapLookup st.devices deviceId

def getAllDevices (st : DeviceRegistry) : List RegisteredDevice :=
  st.devices.map Prod.snd

def getConnectedDevices (st : DeviceRegistry) : List RegisteredDevice :=
  (getAllDevices st).filter
    (fun d => d.status = ConnectionStatus.connected || d.status = ConnectionStatus.paired)

def getPairedDevices (st : DeviceRegistry) : List RegisteredDevice :=
  (getAllDevices st).filter
    (fun d => d.paired && d.status = ConnectionStatus.paired)

/-- `DeviceRegistry.removeDevice(deviceId)`. -/
def removeDevice (st : DeviceRegistry) (deviceId : String) : Bool × DeviceRegistry :=
  match mapLookup st.devices deviceId with
  | none => (false, st)
  | some device =>
      let ip1 :=
        if device.deviceInfo.ip ≠ "" then mapDelete st.ipToIdMap device.deviceInfo.ip
        else st.ipToIdMap
      let mac1 :=
        match device.deviceInfo.mac with
        | some m => if m ≠ "" then mapDelete st.macToIdMap m else st.macToIdMap
        | none => st.macToIdMap
      (true, { st with devices := mapDelete st.devices deviceId,
                       ipToIdMap := ip1, macToIdMap := mac1 })

/-- `DeviceRegistry.updateDeviceLastSeen(deviceId)`. -/
def updateDeviceLastSeen (st : DeviceRegistry) (deviceId : String) (now : Nat) :
    Bool × DeviceRegistry :=
  match mapLookup st.devices deviceId with
  | none => (false, st)
  | some device =>
      (true, { st with devices := mapSet st.devices deviceId { device with lastSeen := now } })

/-- `DeviceRegistry.cleanupOldDevices(maxAge)`: remove every device whose
`lastSeen` is before `now - maxAge` (Nat subtraction truncates at 0 exactly
where the JS comparison against a non-positive cutoff is vacuous). -/
def cleanupOldDevices (st : DeviceRegistry) (maxAge now : Nat) : Nat × DeviceRegistry :=
  let cutoff := now - maxAge
  let stale := (st.devices.filter (fun p => p.2.lastSeen < cutoff)).map Prod.fst
  stale.foldl
    (fun acc did =>
      let r := removeDevice acc.2 did
      (if r.1 then acc.1 + 1 else acc.1, r.2))
    (0, st)

/-!
Control Server (controller role), from part_005's `ControlServer` class.
Messages are modelled down to the envelope fields that `createBaseMessage`
fills in; the payload is an inductive keyed by message kind.
-/

/-- Error codes from shared/constants.ts `ERROR_CODES`. -/
def INVALID_MESSAGE : Nat := 100

def AUTHENTICATION_FAILED : Nat := 101

def INVALID_COMMAND : Nat := 102

def INTERNAL_ERROR : Nat := 103

def NOT_PAIRED : Nat := 104

/-- Payload (`data`) of an outbound server message. -/
inductive MsgData
  | registeredData (deviceId : String) (pairingRequired : Bool) (pairingToken : Option String)
  | pairingResponseData (accepted : Bool) (authToken : Option String) (err : Option String)
  | commandData (commandType direction : String) (rep holdTime : Nat)
  | heartbeatAckData
  | errorData (code : Nat) (message : String)
  deriving Repr, DecidableEq

/-- A protocol message as built by `createBaseMessage` plus a `data` payload. -/
structure ServerMsg where
  type : String
  version : String
  timestamp : Nat
  senderId : String
  senderType : String
  data : MsgData
  deriving Repr, DecidableEq

/-- `createBaseMessage(type, controllerId, DeviceType.CONTROLLER)` plus payload. -/
def mkServerMsg (t controllerId : String) (now : Nat) (d : MsgData) : ServerMsg :=
  { type := t, version := "1.0.0", timestamp := now,
    senderId := controllerId, senderType := "controller", data := d }

/-- `createErrorMessage(controllerId, DeviceType.CONTROLLER, code, message)`. -/
def createErrorMessage (controllerId : String) (now code : Nat) (message : String) : ServerMsg :=
  mkServerMsg "error" controllerId now (.errorData code message)

/-- Per-session record of the server's connection table (`WebSocketWithId`). -/
structure ServerConnection where
  connectionId : String
  deviceId : Option String
  isAlive : Bool
  lastActivity : Nat
  deriving Repr, DecidableEq

/-- The `ControlServer`'s mutable state: the connection table and the registry. -/
structure ControlServerState where
  connections : List (String × ServerConnection)
  registry : DeviceRegistry
  controllerId : String
  deriving Repr, DecidableEq

def initialServer (controllerId : String) : ControlServerState :=
  { connections := [], registry := initialRegistry, controllerId := controllerId }

/-- `handleConnection`: a fresh session is stored in the table, alive, unbound. -/
def openConnection (st : ControlServerState) (connId : String) (now : Nat) :
    ControlServerState :=
  let c : ServerConnection :=
    { connectionId := connId, deviceId := none, isAlive := true, lastActivity := now }
  { st with connections := mapSet st.connections connId c }

/-- `getConnectionByDeviceId`: first connection in table order bound to the id. -/
def getConnectionByDeviceId (st : ControlServerState) (deviceId : String) :
    Option ServerConnection :=
  (st.connections.map Prod.snd).find? (fun c => c.deviceId = some deviceId)

/-- `ControlServer.handleRegisterMessage`. The incoming payload's `deviceInfo`
may be absent, and its `id` / `type` fields are truthiness-tested. The handler
registers the device, binds this connection's `deviceId`, connects the device
in the registry, and replies `registered`. It does not touch any other entry
of the connection table. -/
def handleRegisterMessage (supply : Nat → String) (st : ControlServerState)
    (connId : String) (deviceInfo : Option DeviceInfo) (now : Nat) :
    ControlServerState × ServerMsg :=
  match deviceInfo with
  | none => (st, createErrorMessage st.controllerId now INVALID_MESSAGE "Invalid device info")
  | some info =>
      if info.id = "" ∨ info.type = "" then
        (st, createErrorMessage st.controllerId now INVALID_MESSAGE "Invalid device info")
      else if info.type ≠ "target" then
        (st, createErrorMessage st.controllerId now INVALID_MESSAGE
          "Only target devices can register")
      else
        let reg := registerDevice supply st.registry info true now
        let device := reg.1
        let conns1 :=
          match mapLookup st.connections connId with
          | some c => mapSet st.connections connId { c with deviceId := some device.deviceInfo.id }
          | none => st.connections
        let reg2 := connectDevice reg.2 device.deviceInfo.id connId now
        ({ st with registry := reg2.2, connections := conns1 },
         mkServerMsg "registered" st.controllerId now
           (.registeredData device.deviceInfo.id (!device.paired) device.pairingToken))

/-- `ControlServer.handlePairingRequestMessage`. Requires the session to carry
a bound (truthy) `deviceId` and a truthy `pairingToken` payload, then delegates
to `pairDevice`. On registry failure the code answers with an `error` message
carrying `AUTHENTICATION_FAILED` and the registry's reason text; only on
success does it answer with a `pairing_response`. -/
def handlePairingRequestMessage (supply : Nat → String) (st : ControlServerState)
    (conn : ServerConnection) (pairingToken : Option String) (now : Nat) :
    ControlServerState × ServerMsg :=
  match conn.deviceId with
  | none => (st, createErrorMessage st.controllerId now INVALID_MESSAGE "Device not registered")
  | some did =>
      if did = "" then
        (st, createErrorMessage st.controllerId now INVALID_MESSAGE "Device not registered")
      else
        match pairingToken with
        | none =>
            (st, createErrorMessage st.controllerId now INVALID_MESSAGE "Missing pairing token")
        | some tok =>
            if tok = "" then
              (st, createErrorMessage st.controllerId now INVALID_MESSAGE
                "Missing pairing token")
            else
              let pr := pairDevice supply st.registry did tok now
              if pr.1.success = false then
                ({ st with registry := pr.2 },
                 createErrorMessage st.controllerId now AUTHENTICATION_FAILED
                   (match pr.1.error with | some e => e | none => "Pairing failed"))
              else
                ({ st with registry := pr.2 },
                 mkServerMsg "pairing_response" st.controllerId now
                   (.pairingResponseData true
                     (match pr.1.device with | some d => d.authToken | none => none) none))

/-- Outcome of `sendArrowCommand`: either a serialized `command` message handed
to one connection, or a rejection with the reason of the first failed
precondition (the code rejects before any `sendMessage` call). -/
inductive SendOutcome
  | sent (connectionId : String) (msg : ServerMsg)
  | failed (reason : String)
  deriving Repr, DecidableEq

/-- `direction === "left" ? ARROW_LEFT : ARROW_RIGHT`. -/
def arrowCommandType (direction : String) : String :=
  if direction = "left" then "arrow_left" else "arrow_right"

/-- `ControlServer.sendArrowCommand(deviceId, direction, options)`. The
`repeat` default is `options.repeat || 1` (0 is falsy and becomes 1), the
`holdTime` default is `options.holdTime || 0`. -/
def sendArrowCommand (st : ControlServerState) (deviceId direction : String)
    (rep holdTime : Option Nat) (now : Nat) : SendOutcome :=
  match getDeviceById st.registry deviceId with
  | none => .failed "Device not found"
  | some device =>
      if device.status ≠ ConnectionStatus.connected ∧
         device.status ≠ ConnectionStatus.paired then
        .failed "Device not connected"
      else if device.paired = false then
        .failed "Device not paired"
      else
        let commandType := arrowCommandType direction
        if device.deviceInfo.supportedCommands.contains commandType = false then
          .failed ("Device does not support command: " ++ commandType)
        else
          match getConnectionByDeviceId st deviceId with
          | none => .failed "No active connection for device"
          | some conn =>
              .sent conn.connectionId
                (mkServerMsg "command" st.controllerId now
                  (.commandData commandType direction
                    (match rep with | some n => if n = 0 then 1 else n | none => 1)
                    (match holdTime with | some n => n | none => 0)))

/-!
Control Client (target role), from part_003's `SimplifiedControlClient`:
the reconnect backoff state machine.
-/

/-- The fields of `SimplifiedControlClient` that the reconnect logic touches.
`reconnectTimer` is the pending `setTimeout` handle together with its delay;
`none` means no timer is pending. -/
structure ClientState where
  reconnectAttempts : Nat
  maxReconnectAttempts : Nat
  reconnectTimer : Option Nat
  heartbeatOn : Bool
  status : ConnectionStatus
  autoConnect : Bool
  hasControllerInfo : Bool
  wsOpen : Bool
  deriving Repr, DecidableEq

/-- `scheduleReconnect`: cancel any pending timer and set exactly one new one
with delay `Math.min(1000 * Math.pow(2, this.reconnectAttempts), 30000)`. -/
def scheduleReconnect (st : ClientState) : ClientState :=
  { st with reconnectTimer := some (min (1000 * 2 ^ st.reconnectAttempts) 30000) }

/-- `handleDisconnection`: stop the heartbeat, drop the socket, go to
disconnected, and (when auto-connect is enabled and a controller address is
known) schedule a reconnection attempt. -/
def handleDisconnection (st : ClientState) : ClientState :=
  let st1 := { st with heartbeatOn := false, wsOpen := false,
                       status := ConnectionStatus.disconnected }
  if st1.autoConnect && st1.hasControllerInfo then scheduleReconnect st1 else st1

/-- What the body of the reconnect `setTimeout` callback does after it fires. -/
inductive ReconnectAction
  | gaveUp
  | attemptConnect
  deriving Repr, DecidableEq

/-- The reconnect timer firing: the pending timer is consumed, the attempt
counter `this.reconnectAttempts++` increments, and past the maximum the
callback logs the terminal warning and returns without calling `connect` or
scheduling anything. -/
def fireReconnectTimer (st : ClientState) : ClientState × Option ReconnectAction :=
  match st.reconnectTimer with
  | none => (st, none)
  | some _ =>
      let st1 := { st with reconnectTimer := none,
                           reconnectAttempts := st.reconnectAttempts + 1 }
      if st1.reconnectAttempts > st1.maxReconnectAttempts then (st1, some .gaveUp)
      else if st1.hasControllerInfo then (st1, some .attemptConnect)
      else (st1, none)

/-!
Wire protocol validation, from shared/utils.ts `validateMessage`.
-/

/-- Raw `sender` object of an inbound message. -/
structure RawSender where
  id : Option String
  type : Option String
  deriving Repr, DecidableEq

/-- Raw inbound message: each envelope field may be missing. -/
structure RawMessage where
  type : Option String
  version : Option String
  timestamp : Option Nat
  sender : Option RawSender
  deriving Repr, DecidableEq

structure ValidationResult where
  valid : Bool
  error : Option String
  deriving Repr, DecidableEq

/-- `validateMessage(message)`. A `none` input models a non-object message.
The source tests `!type || !version || !timestamp || !sender` as one group
(so a missing sender is reported with the same text as a missing type), then
`!sender.id || !sender.type`, then membership of `sender.type` in the enum. -/
def validateMessage : Option RawMessage → ValidationResult
  | none => { valid := false, error := some "Message must be an object" }
  | some m =>
      match m.sender with
      | none => { valid := false, error := some "Message missing required fields" }
      | some s =>
          if !(strTruthy m.type && strTruthy m.version && natTruthy m.timestamp) then
            { valid := false, error := some "Message missing required fields" }
          else if !(strTruthy s.id && strTruthy s.type) then
            { valid := false, error := some "Sender missing required fields" }
          else if !(s.type = some "controller" || s.type = some "target") then
            { valid := false, error := some "Invalid sender type" }
          else { valid := true, error := none }

/-!
Reachability of registry states: every public mutating method of
`DeviceRegistry`, applied in any order from the empty registry.
-/

/-- One call to a mutating method of `DeviceRegistry`. -/
inductive RegistryOp
  | register (info : DeviceInfo) (requirePairing : Bool) (now : Nat)
  | connect (deviceId connId : String) (now : Nat)
  | disconnect (deviceId : String) (now : Nat)
  | pair (deviceId token : String) (now : Nat)
  | unpair (deviceId : String) (now : Nat)
  | remove (deviceId : String)
  | touch (deviceId : String) (now : Nat)
  | cleanup (maxAge now : Nat)

/-- State transition of one registry call. -/
def applyOp (supply : Nat → String) (st : DeviceRegistry) : RegistryOp → DeviceRegistry
  | .register info rp now => (registerDevice supply st info rp now).2
  | .connect did cid now => (connectDevice st did cid now).2
  | .disconnect did now => (disconnectDevice st did now).2
  | .pair did tok now => (pairDevice supply st did tok now).2
  | .unpair did now => (unpairDevice supply st did now).2
  | .remove did => (removeDevice st did).2
  | .touch did now => (updateDeviceLastSeen st did now).2
  | .cleanup maxAge now => (cleanupOldDevices st maxAge now).2

/-- The registry state after a call sequence starting from the empty registry. -/
def runOps (supply : Nat → String) (ops : List RegistryOp) : DeviceRegistry :=
  ops.foldl (applyOp supply) initialRegistry

/-- Per-record half of the spec's pairing invariant: the auth token is a
non-empty string exactly when the device is paired. -/
def authPairedInv (d : RegisteredDevice) : Prop :=
  (∃ t, d.authToken = some t ∧ t ≠ "") ↔ d.paired = true

/-- The pairing invariant over every record of the registry. -/
def registryInv (st : DeviceRegistry) : Prop :=
  ∀ k d, (k, d) ∈ st.devices → authPairedInv d

/-!
Concrete fixtures used by witnesses and counterexamples.
-/

/-- A deterministic token supply standing in for `crypto.randomBytes`. -/
def sup0 : Nat → String := fun n => "tok" ++ toString n

/-- A target device identity used in concrete runs. -/
def infoT1 : DeviceInfo :=
  { id := "t1", name := "tn", ip := "10.0.0.2", mac := none, type := "target",
    supportedCommands := ["arrow_left", "arrow_right"] }

/-- Server state after connection "c1" opens and "t1" registers on it. -/
def serverWithT1 : ControlServerState :=
  (handleRegisterMessage sup0 (openConnection (initialServer "ctrl") "c1" 10)
    "c1" (some infoT1) 11).1

/-- The connection record bound to "t1" inside `serverWithT1`. -/
def connC1 : ServerConnection :=
  { connectionId := "c1", deviceId := some "t1", isAlive := true, lastActivity := 10 }

/-- Server state after a second connection "c2" registers the same device. -/
def serverTwoConns : ControlServerState :=
  (handleRegisterMessage sup0 (openConnection serverWithT1 "c2" 12) "c2" (some infoT1) 13).1

/-- Registry after: register d1 at ip A; re-register d1 at ip B (by-id update);
register a fresh id d2 at ip B. -/
def infoD1A : DeviceInfo :=
  { id := "d1", name := "n1", ip := "A", mac := none, type := "target",
    supportedCommands := ["arrow_left"] }

def regAfterIpChange : DeviceRegistry :=
  (registerDevice sup0 (registerDevice sup0 initialRegistry infoD1A true 1).2
    { infoD1A with ip := "B" } true 2).2

def regWithDuplicate : DeviceRegistry :=
  (registerDevice sup0 regAfterIpChange { infoD1A with id := "d2", ip := "B" } true 3).2

/-- A raw inbound message whose sender type is outside the enum. -/
def rawBadSenderMsg : RawMessage :=
  { type := some "register", version := some "1.0.0", timestamp := some 5,
    sender := some { id := some "x", type := some "banana" } }

/-- A client that has used up its reconnect budget and has a pending timer. -/
def clientAtMax : ClientState :=
  { reconnectAttempts := 10, maxReconnectAttempts := 10, reconnectTimer := some 30000,
    heartbeatOn := false, status := ConnectionStatus.disconnected,
    autoConnect := true, hasControllerInfo := true, wsOpen := false }

/-- Registry call sequence: register t1, connect it, pair it, disconnect it. -/
def pairedThenDisconnectedOps : List RegistryOp :=
  [ .register infoT1 true 1, .connect "t1" "c1" 2, .pair "t1" "tok0" 3, .disconnect "t1" 4 ]
theorem mapLookup_mapSet_self {α : Type} (l : List (String × α)) (k : String) (v : α) :
    mapLookup (mapSet l k v) k = some v := by
  induction l with
  | nil => simp [mapSet, mapLookup]
  | cons p rest ih =>
      by_cases h : p.1 = k
      · simp [mapSet, mapLookup, h]
      · simp [mapSet, mapLookup, h, ih]

theorem mapLookup_mapSet_ne {α : Type} (l : List (String × α)) (k k' : String) (v : α)
    (h : k' ≠ k) : mapLookup (mapSet l k v) k' = mapLookup l k' := by
  induction l with
  | nil => simp [mapSet, mapLookup, Ne.symm h]
  | cons p rest ih =>
      obtain ⟨pk, pv⟩ := p
      by_cases hp : pk = k
      · subst hp
        simp [mapSet, mapLookup, Ne.symm h]
      · by_cases hp' : pk = k'
        · simp [mapSet, mapLookup, hp, hp', h]
        · simp [mapSet, mapLookup, hp, hp', ih]

theorem mapLookup_mapDelete_self {α : Type} (l : List (String × α)) (k : String) :
    mapLookup (mapDelete l k) k = none := by
  induction l with
  | nil => simp [mapDelete, mapLookup]
  | cons p rest ih =>
      obtain ⟨pk, pv⟩ := p
      by_cases h : pk = k
      · simpa [mapDelete, mapLookup, h] using ih
      · simpa [mapDelete, mapLookup, h] using ih

theorem mapLookup_mapDelete_ne {α : Type} (l : List (String × α)) (k k' : String)
    (h : k' ≠ k) : mapLookup (mapDelete l k) k' = mapLookup l k' := by
  induction l with
  | nil => simp [mapDelete, mapLookup]
  | cons p rest ih =>
      obtain ⟨pk, pv⟩ := p
      by_cases hp : pk = k
      · subst hp
        simpa [mapDelete, mapLookup, Ne.symm h] using ih
      · by_cases hp' : pk = k'
        · simp [mapDelete, mapLookup, hp, hp', h]
        · simpa [mapDelete, mapLookup, hp, hp'] using ih

theorem mem_of_mem_mapSet {α : Type} {l : List (String × α)} {k k' : String} {v v' : α}
    (h : (k', v') ∈ mapSet l k v) : (k', v') ∈ l ∨ (k' = k ∧ v' = v) := by
  induction l with
  | nil =>
      simp only [mapSet, List.mem_singleton, Prod.mk.injEq] at h
      exact Or.inr h
  | cons p rest ih =>
      obtain ⟨pk, pv⟩ := p
      by_cases hp : pk = k
      · subst hp
        simp only [mapSet, if_pos rfl] at h
        rcases List.mem_cons.1 h with h' | h'
        · exact Or.inr ⟨congrArg Prod.fst h', congrArg Prod.snd h'⟩
        · exact Or.inl (List.mem_cons_of_mem _ h')
      · simp only [mapSet, if_neg hp] at h
        rcases List.mem_cons.1 h with h' | h'
        · exact Or.inl (List.mem_cons.2 (Or.inl h'))
        · rcases ih h' with h'' | h''
          · exact Or.inl (List.mem_cons_of_mem _ h'')
          · exact Or.inr h''

theorem mem_of_mem_mapDelete {α : Type} {l : List (String × α)} {k : String} {pr : String × α}
    (h : pr ∈ mapDelete l k) : pr ∈ l := by
  induction l with
  | nil => simp [mapDelete] at h
  | cons p rest ih =>
      obtain ⟨pk, pv⟩ := p
      by_cases hp : pk = k
      · simp only [mapDelete, if_pos hp] at h
        exact List.mem_cons_of_mem _ (ih h)
      · simp only [mapDelete, if_neg hp, List.mem_cons] at h
        rcases h with h | h
        · exact List.mem_cons.2 (Or.inl h)
        · exact List.mem_cons_of_mem _ (ih h)

theorem mapSet_keys_of_mem {α : Type} (l : List (String × α)) (k : String) (v : α)
    (h : (mapLookup l k).isSome) :
    (mapSet l k v).map Prod.fst = l.map Prod.fst := by
  induction l with
  | nil => simp [mapLookup] at h
  | cons p rest ih =>
      obtain ⟨pk, pv⟩ := p
      by_cases hp : pk = k
      · simp [mapSet, hp]
      · simp only [mapLookup, if_neg hp] at h
        simp [mapSet, hp, ih h]


theorem mem_of_mapLookup_some {α : Type} {l : List (String × α)} {k : String} {v : α}
    (h : mapLookup l k = some v) : (k, v) ∈ l := by
  induction l with
  | nil => simp [mapLookup] at h
  | cons p rest ih =>
      obtain ⟨pk, pv⟩ := p
      by_cases hp : pk = k
      · subst hp
        simp only [mapLookup, eq_self_iff_true, if_true, Option.some.injEq] at h
        subst h
        exact List.mem_cons_self _ _
      · simp only [mapLookup, if_neg hp] at h
        exact List.mem_cons_of_mem _ (ih h)

theorem registerDevice_fst_id (supply : Nat → String) (st : DeviceRegistry)
    (info : DeviceInfo) (rp : Bool) (now : Nat) :
    (registerDevice supply st info rp now).1.deviceInfo.id = info.id := by
  cases h1 : mapLookup st.devices info.id with
  | some device => simp [registerDevice, h1, mergeDeviceInfo]
  | none =>
      cases h2 : lookupExistingId st info with
      | some eid =>
          by_cases h0 : eid = ""
          · simp [registerDevice, registerNewDevice, h1, h2, h0]
          · cases h3 : mapLookup st.devices eid with
            | some device => simp [registerDevice, h1, h2, h0, h3, mergeDeviceInfo]
            | none => simp [registerDevice, registerNewDevice, h1, h2, h0, h3]
      | none => simp [registerDevice, registerNewDevice, h1, h2]

theorem registerDevice_lookup_self (supply : Nat → String) (st : DeviceRegistry)
    (info : DeviceInfo) (rp : Bool) (now : Nat) :
    mapLookup (registerDevice supply st info rp now).2.devices info.id
      = some (registerDevice supply st info rp now).1 := by
  cases h1 : mapLookup st.devices info.id with
  | some device => simp [registerDevice, h1, mapLookup_mapSet_self]
  | none =>
      cases h2 : lookupExistingId st info with
      | some eid =>
          by_cases h0 : eid = ""
          · simp [registerDevice, registerNewDevice, h1, h2, h0, mapLookup_mapSet_self]
          · cases h3 : mapLookup st.devices eid with
            | some device =>
                simp [registerDevice, h1, h2, h0, h3, mapLookup_mapSet_self]
            | none =>
                simp [registerDevice, registerNewDevice, h1, h2, h0, h3,
                  mapLookup_mapSet_self]
      | none => simp [registerDevice, registerNewDevice, h1, h2, mapLookup_mapSet_self]

theorem connectDevice_lookup_self {st : DeviceRegistry} {did : String} {d : RegisteredDevice}
    (h : mapLookup st.devices did = some d) (cid : String) (now : Nat) :
    mapLookup (connectDevice st did cid now).2.devices did
      = some { d with
          status := if d.paired then ConnectionStatus.paired else ConnectionStatus.connected,
          connectionId := some cid, lastSeen := now } := by
  simp [connectDevice, h, mapLookup_mapSet_self]

/-- Claim C1: the spec (and the protocol's own `PairingResponseMessage` type
and the client's rejected-pairing handler) call for a
`pairing_response{accepted:false, error}` reply when `pairDevice` fails, but
the server as written replies with an `error` message (code
AUTHENTICATION_FAILED) carrying the registry's reason text. The registry
state (status, paired) is indeed left unchanged. Evaluated at the failing
input: device "t1" registered and bound on connection "c1" holding pairing
token "tok0", pairing_request arrives with the wrong token "bad". -/
theorem pairing_failure_replies_error_message :
    mapLookup serverWithT1.connections "c1" = some connC1 ∧
    (handlePairingRequestMessage sup0 serverWithT1 connC1 (some "bad") 14).2.type = "error" ∧
    (handlePairingRequestMessage sup0 serverWithT1 connC1 (some "bad") 14).2.data
      = MsgData.errorData AUTHENTICATION_FAILED "Invalid pairing token" ∧
    (handlePairingRequestMessage sup0 serverWithT1 connC1 (some "bad") 14).2.type
      ≠ "pairing_response" ∧
    (handlePairingRequestMessage sup0 serverWithT1 connC1 (some "bad") 14).1.registry
      = serverWithT1.registry ∧
    (getDeviceById serverWithT1.registry "t1").map (fun d => (d.status, d.paired))
      = some (ConnectionStatus.connected, false) := by
  decide

/-- Claim C2 counterexample: after device "t1" registers on connection "c1"
and then registers again on a new connection "c2", both table entries are
live and bound to "t1": the prior connection was neither terminated nor
unbound, so the claimed at-most-one-bound-connection invariant fails. -/
theorem register_leaves_two_connections_bound :
    ((serverTwoConns.connections.map Prod.snd).filter
        (fun c => c.deviceId = some "t1")).length = 2 ∧
    mapLookup serverTwoConns.connections "c1"
      = some { connectionId := "c1", deviceId := some "t1",
               isAlive := true, lastActivity := 10 } ∧
    mapLookup serverTwoConns.connections "c2"
      = some { connectionId := "c2", deviceId := some "t1",
               isAlive := true, lastActivity := 12 } := by
  decide

/-- Claim C2 (amended): for a well-formed register message, the handler binds
the registering connection's deviceId and overwrites the registry record's
connectionId (so the registry itself names only the newest connection), but it
terminates, unbinds and removes no other connection of the table — a prior
live connection bound to the same deviceId stays bound. -/
theorem register_binds_new_connection_only :
    ∀ (supply : Nat → String) (st : ControlServerState) (connId : String)
      (c : ServerConnection) (info : DeviceInfo) (now : Nat),
      mapLookup st.connections connId = some c →
      info.id ≠ "" → info.type = "target" →
      mapLookup (handleRegisterMessage supply st connId (some info) now).1.connections connId
        = some { c with deviceId := some info.id } ∧
      (getDeviceById (handleRegisterMessage supply st connId (some info) now).1.registry
          info.id).map (fun d => d.connectionId) = some (some connId) ∧
      (∀ cid, cid ≠ connId →
          mapLookup (handleRegisterMessage supply st connId (some info) now).1.connections cid
            = mapLookup st.connections cid) := by
  intro supply st connId c info now hconn hid htype
  have hguard : ¬ (info.id = "" ∨ info.type = "") := by
    rintro (h | h)
    · exact hid h
    · rw [htype] at h
      exact absurd h (by decide)
  have htype' : ¬ info.type ≠ "target" := by simp [htype]
  have hfst := registerDevice_fst_id supply st.registry info true now
  have hselfreg := registerDevice_lookup_self supply st.registry info true now
  simp only [handleRegisterMessage, if_neg hguard, if_neg htype', hconn, hfst]
  refine ⟨mapLookup_mapSet_self _ _ _, ?_, ?_⟩
  · simp [getDeviceById, connectDevice_lookup_self hselfreg connId now]
  · intro cid hcid
    exact mapLookup_mapSet_ne _ _ _ _ hcid

/-- Witness for the amended C2 theorem at the concrete state `serverWithT1`
with a fresh connection "c2" re-registering "t1". -/
theorem register_binds_new_connection_only_witness :
    mapLookup (handleRegisterMessage sup0 (openConnection serverWithT1 "c2" 12)
        "c2" (some infoT1) 13).1.connections "c2"
      = some { connectionId := "c2", deviceId := some "t1",
               isAlive := true, lastActivity := 12 } := by
  have h := register_binds_new_connection_only sup0 (openConnection serverWithT1 "c2" 12)
    "c2" { connectionId := "c2", deviceId := none, isAlive := true, lastActivity := 12 }
    infoT1 13 (by decide) (by decide) (by decide)
  exact h.1

/-- Claim C3: sendArrowCommand checks its preconditions in this order —
device unknown; status neither connected nor paired; not paired; command type
not in supportedCommands; no live connection bound — each failing with its own
distinct reason, and a failed precondition never yields a sent command. -/
theorem sendArrowCommand_precondition_order :
    ∀ (st : ControlServerState) (deviceId direction : String)
      (rep holdTime : Option Nat) (now : Nat),
      (getDeviceById st.registry deviceId = none →
        sendArrowCommand st deviceId direction rep holdTime now
          = .failed "Device not found") ∧
      (∀ device, getDeviceById st.registry deviceId = some device →
        device.status ≠ ConnectionStatus.connected →
        device.status ≠ ConnectionStatus.paired →
        sendArrowCommand st deviceId direction rep holdTime now
          = .failed "Device not connected") ∧
      (∀ device, getDeviceById st.registry deviceId = some device →
        (device.status = ConnectionStatus.connected ∨
         device.status = ConnectionStatus.paired) →
        device.paired = false →
        sendArrowCommand st deviceId direction rep holdTime now
          = .failed "Device not paired") ∧
      (∀ device, getDeviceById st.registry deviceId = some device →
        (device.status = ConnectionStatus.connected ∨
         device.status = ConnectionStatus.paired) →
        device.paired = true →
        device.deviceInfo.supportedCommands.contains (arrowCommandType direction) = false →
        sendArrowCommand st deviceId direction rep holdTime now
          = .failed ("Device does not support command: " ++ arrowCommandType direction)) ∧
      (∀ device, getDeviceById st.registry deviceId = some device →
        (device.status = ConnectionStatus.connected ∨
         device.status = ConnectionStatus.paired) →
        device.paired = true →
        device.deviceInfo.supportedCommands.contains (arrowCommandType direction) = true →
        getConnectionByDeviceId st deviceId = none →
        sendArrowCommand st deviceId direction rep holdTime now
          = .failed "No active connection for device") ∧
      List.Pairwise (fun a b => a ≠ b)
        [ "Device not found", "Device not connected", "Device not paired",
          "Device does not support command: " ++ arrowCommandType direction,
          "No active connection for device" ] ∧
      (∀ r connId msg,
        sendArrowCommand st deviceId direction rep holdTime now = .failed r →
        sendArrowCommand st deviceId direction rep holdTime now ≠ .sent connId msg) := by
  intro st deviceId direction rep holdTime now
  refine ⟨?_, ?_, ?_, ?_, ?_, ?_, ?_⟩
  · intro h
    simp [sendArrowCommand, h]
  · intro device hdev h1 h2
    simp [sendArrowCommand, hdev, h1, h2]
  · intro device hdev hstat hpaired
    have hns : ¬ (device.status ≠ ConnectionStatus.connected ∧
        device.status ≠ ConnectionStatus.paired) := by
      rcases hstat with h | h <;> simp [h]
    simp [sendArrowCommand, hdev, hns, hpaired]
  · intro device hdev hstat hpaired hcmd
    have hns : ¬ (device.status ≠ ConnectionStatus.connected ∧
        device.status ≠ ConnectionStatus.paired) := by
      rcases hstat with h | h <;> simp [h]
    simp [sendArrowCommand, hdev, hns, hpaired, hcmd]
    intro hmem
    have hc : device.deviceInfo.supportedCommands.contains (arrowCommandType direction)
        = true := by simpa using hmem
    rw [hc] at hcmd
    simp at hcmd
  · intro device hdev hstat hpaired hcmd hconn
    have hns : ¬ (device.status ≠ ConnectionStatus.connected ∧
        device.status ≠ ConnectionStatus.paired) := by
      rcases hstat with h | h <;> simp [h]
    simp [sendArrowCommand, hdev, hns, hpaired, hcmd, hconn]
    intro hmem
    have hc : arrowCommandType direction ∈ device.deviceInfo.supportedCommands := by
      simpa using hcmd
    exact absurd hc hmem
  · have harrow : arrowCommandType direction = "arrow_left" ∨
        arrowCommandType direction = "arrow_right" := by
      unfold arrowCommandType
      by_cases h : direction = "left" <;> simp [h]
    rcases harrow with h | h <;> rw [h] <;> decide
  · intro r connId msg heq
    simp [heq]

/-- Witness for C3 at a concrete state: `serverWithT1` holds "t1" connected
but unpaired, so the third precondition fires. -/
theorem sendArrowCommand_precondition_order_witness :
    sendArrowCommand serverWithT1 "t1" "left" none none 20
      = .failed "Device not paired" := by
  have h := (sendArrowCommand_precondition_order serverWithT1 "t1" "left" none none 20).2.2.1
  exact h
    { deviceInfo := infoT1, status := ConnectionStatus.connected, lastSeen := 11,
      firstSeen := 11, connectionId := some "c1", authToken := none, paired := false,
      pairingToken := some "tok0", pairingExpiration := some 300011 }
    (by decide) (by decide) (by decide)

/-- Claim C4: pairDevice fails with distinct reasons in order — unknown
device; no outstanding pairing token (which is also the replay-after-success
case, since success clears the token); token mismatch; token expired — and
every failure leaves the registry unchanged. -/
theorem pairDevice_failure_reasons :
    ∀ (supply : Nat → String) (st : DeviceRegistry) (did tok : String) (now : Nat),
      ((pairDevice supply st did tok now).1.success = false →
        (pairDevice supply st did tok now).2 = st) ∧
      (mapLookup st.devices did = none →
        (pairDevice supply st did tok now).1 = pairFailure "Device not found") ∧
      (∀ d, mapLookup st.devices did = some d → d.pairingToken = none →
        (pairDevice supply st did tok now).1 = pairFailure "Device does not support pairing") ∧
      (∀ d, mapLookup st.devices did = some d → d.pairingToken = some "" →
        (pairDevice supply st did tok now).1 = pairFailure "Device does not support pairing") ∧
      (∀ d pt, mapLookup st.devices did = some d → d.pairingToken = some pt →
        pt ≠ "" → pt ≠ tok →
        (pairDevice supply st did tok now).1 = pairFailure "Invalid pairing token") ∧
      (∀ d e, mapLookup st.devices did = some d → d.pairingToken = some tok →
        tok ≠ "" → d.pairingExpiration = some e → e ≠ 0 → e < now →
        (pairDevice supply st did tok now).1 = pairFailure "Pairing token expired") ∧
      (∀ now2 tok2, (pairDevice supply st did tok now).1.success = true →
        (pairDevice supply (pairDevice supply st did tok now).2 did tok2 now2).1
          = pairFailure "Device does not support pairing") := by
  intro supply st did tok now
  refine ⟨?_, ?_, ?_, ?_, ?_, ?_, ?_⟩
  · intro hfail
    cases hl : mapLookup st.devices did with
    | none => simp [pairDevice, hl]
    | some d =>
        cases hpt : d.pairingToken with
        | none => simp [pairDevice, hl, hpt]
        | some pt =>
            by_cases h1 : pt = ""
            · simp [pairDevice, hl, hpt, h1]
            · by_cases h2 : pt ≠ tok
              · simp [pairDevice, hl, hpt, h1, h2]
              · by_cases h3 : pairingExpired d.pairingExpiration now = true
                · simp [pairDevice, hl, hpt, h1, h2, h3]
                · exfalso
                  simp [pairDevice, hl, hpt, h1, h2, h3] at hfail
  · intro hl
    simp [pairDevice, hl]
  · intro d hl hpt
    simp [pairDevice, hl, hpt]
  · intro d hl hpt
    simp [pairDevice, hl, hpt]
  · intro d pt hl hpt h1 h2
    simp [pairDevice, hl, hpt, h1, h2]
  · intro d e hl hpt h1 he he0 hlt
    simp [pairDevice, hl, hpt, h1, pairingExpired, he, he0, hlt]
  · intro now2 tok2 hsucc
    cases hl : mapLookup st.devices did with
    | none => simp [pairDevice, pairFailure, hl] at hsucc
    | some d =>
        cases hpt : d.pairingToken with
        | none => simp [pairDevice, pairFailure, hl, hpt] at hsucc
        | some pt =>
            by_cases h1 : pt = ""
            · simp [pairDevice, pairFailure, hl, hpt, h1] at hsucc
            · by_cases h2 : pt ≠ tok
              · simp [pairDevice, pairFailure, hl, hpt, h1, h2] at hsucc
              · by_cases h3 : pairingExpired d.pairingExpiration now = true
                · simp [pairDevice, pairFailure, hl, hpt, h1, h2, h3] at hsucc
                · simp [pairDevice, hl, hpt, h1, h2, h3, pairFailure,
                    mapLookup_mapSet_self]

/-- Witness for C4: wrong token "bad" against outstanding token "tok0" in the
concrete registry of `serverWithT1` fails with the mismatch reason and leaves
the registry unchanged. -/
theorem pairDevice_failure_reasons_witness :
    (pairDevice sup0 serverWithT1.registry "t1" "bad" 14).1
      = pairFailure "Invalid pairing token" ∧
    (pairDevice sup0 serverWithT1.registry "t1" "bad" 14).2 = serverWithT1.registry := by
  have h := pairDevice_failure_reasons sup0 serverWithT1.registry "t1" "bad" 14
  refine ⟨?_, h.1 (by decide)⟩
  exact h.2.2.2.2.1
    { deviceInfo := infoT1, status := ConnectionStatus.connected, lastSeen := 11,
      firstSeen := 11, connectionId := some "c1", authToken := none, paired := false,
      pairingToken := some "tok0", pairingExpiration := some 300011 }
    "tok0" (by decide) (by decide) (by decide) (by decide)

theorem sup0_ne_empty : ∀ n : Nat, sup0 n ≠ "" := by
  intro n h
  have hlen : (sup0 n).length = 0 := by rw [h]; rfl
  rw [sup0] at hlen
  simp only [String.length_append] at hlen
  have h3 : ("tok" : String).length = 3 := rfl
  omega

/-- Claim C5: every successful pairDevice call yields a record with a fresh
non-empty authToken (the next draw of the token supply; the draw counter
advances), paired set, pairing token and expiration cleared, and status
promoted connected→paired (any other status is left as it was, cf. C10). -/
theorem pairDevice_success_postconditions :
    ∀ (supply : Nat → String) (st : DeviceRegistry) (did tok : String) (now : Nat)
      (d0 : RegisteredDevice),
      (∀ n, supply n ≠ "") →
      mapLookup st.devices did = some d0 →
      (pairDevice supply st did tok now).1.success = true →
      ∃ d, (pairDevice supply st did tok now).1.device = some d ∧
        mapLookup (pairDevice supply st did tok now).2.devices did = some d ∧
        d.authToken = some (supply st.rng) ∧ supply st.rng ≠ "" ∧
        d.paired = true ∧ d.pairingToken = none ∧ d.pairingExpiration = none ∧
        d.status = (if d0.status = ConnectionStatus.connected then ConnectionStatus.paired
                    else d0.status) ∧
        (pairDevice supply st did tok now).2.rng = st.rng + 1 := by
  intro supply st did tok now d0 hsup hl hsucc
  cases hpt : d0.pairingToken with
  | none => simp [pairDevice, pairFailure, hl, hpt] at hsucc
  | some pt =>
      by_cases h1 : pt = ""
      · simp [pairDevice, pairFailure, hl, hpt, h1] at hsucc
      · by_cases h2 : pt ≠ tok
        · simp [pairDevice, pairFailure, hl, hpt, h1, h2] at hsucc
        · by_cases h3 : pairingExpired d0.pairingExpiration now = true
          · simp [pairDevice, pairFailure, hl, hpt, h1, h2, h3] at hsucc
          · let d1 : RegisteredDevice :=
              { d0 with authToken := some (supply st.rng), paired := true,
                        pairingToken := none, pairingExpiration := none,
                        status := (if d0.status = ConnectionStatus.connected then
                                    ConnectionStatus.paired else d0.status) }
            refine ⟨d1, ?_, ?_, rfl, hsup st.rng, rfl, rfl, rfl, rfl, ?_⟩
            · simp [pairDevice, hl, hpt, h1, h2, h3]
            · simp [pairDevice, hl, hpt, h1, h2, h3, mapLookup_mapSet_self]
            · simp [pairDevice, hl, hpt, h1, h2, h3]

/-- Witness for C5 at the concrete registry of `serverWithT1`: pairing "t1"
with the outstanding token succeeds and produces a paired record holding the
fresh auth token. -/
theorem pairDevice_success_postconditions_witness :
    ∃ d, (pairDevice sup0 serverWithT1.registry "t1" "tok0" 14).1.device = some d ∧
      d.paired = true ∧ d.pairingToken = none ∧
      d.authToken = some (sup0 serverWithT1.registry.rng) := by
  obtain ⟨d, h1, _, h3, _, h5, h6, _⟩ :=
    pairDevice_success_postconditions sup0 serverWithT1.registry "t1" "tok0" 14
      { deviceInfo := infoT1, status := ConnectionStatus.connected, lastSeen := 11,
        firstSeen := 11, connectionId := some "c1", authToken := none, paired := false,
        pairingToken := some "tok0", pairingExpiration := some 300011 }
      sup0_ne_empty (by decide) (by decide)
  exact ⟨d, h1, h5, h6, h3⟩

theorem registryInv_registerNewDevice (supply : Nat → String) (st : DeviceRegistry)
    (info : DeviceInfo) (rp : Bool) (now : Nat) (hInv : registryInv st) :
    registryInv (registerNewDevice supply st info rp now).2 := by
  intro k d hmem
  simp only [registerNewDevice] at hmem
  rcases mem_of_mem_mapSet hmem with h | ⟨_, h⟩
  · exact hInv _ _ h
  · rw [h]
    simp [authPairedInv]

theorem registryInv_removeDevice (st : DeviceRegistry) (did : String)
    (hInv : registryInv st) : registryInv (removeDevice st did).2 := by
  cases h1 : mapLookup st.devices did with
  | none =>
      intro k d hmem
      simp only [removeDevice, h1] at hmem
      exact hInv _ _ hmem
  | some device =>
      intro k d hmem
      simp only [removeDevice, h1] at hmem
      exact hInv _ _ (mem_of_mem_mapDelete hmem)

theorem registryInv_cleanupFold (ids : List String) :
    ∀ acc : Nat × DeviceRegistry, registryInv acc.2 →
      registryInv ((ids.foldl (fun acc did =>
        let r := removeDevice acc.2 did
        (if r.1 then acc.1 + 1 else acc.1, r.2)) acc)).2 := by
  induction ids with
  | nil => intro acc h; exact h
  | cons x xs ih =>
      intro acc h
      exact ih _ (registryInv_removeDevice _ _ h)

theorem applyOp_preserves_registryInv (supply : Nat → String)
    (hsup : ∀ n, supply n ≠ "") (st : DeviceRegistry) (op : RegistryOp)
    (hInv : registryInv st) : registryInv (applyOp supply st op) := by
  cases op with
  | register info rp now =>
      cases h1 : mapLookup st.devices info.id with
      | some device =>
          intro k d hmem
          simp only [applyOp, registerDevice, h1] at hmem
          rcases mem_of_mem_mapSet hmem with h | ⟨_, h⟩
          · exact hInv _ _ h
          · rw [h]
            simpa [authPairedInv] using hInv _ _ (mem_of_mapLookup_some h1)
      | none =>
          cases h2 : lookupExistingId st info with
          | some eid =>
              by_cases h0 : eid = ""
              · have h4 := registryInv_registerNewDevice supply st info rp now hInv
                intro k d hmem
                simp [applyOp, registerDevice, h1, h2, h0] at hmem
                exact h4 _ _ hmem
              · cases h3 : mapLookup st.devices eid with
                | some device =>
                    intro k d hmem
                    simp only [applyOp, registerDevice, h1, h2, if_neg h0, h3] at hmem
                    rcases mem_of_mem_mapSet hmem with h | ⟨_, h⟩
                    · exact hInv _ _ (mem_of_mem_mapDelete h)
                    · rw [h]
                      simpa [authPairedInv] using hInv _ _ (mem_of_mapLookup_some h3)
                | none =>
                    have h4 := registryInv_registerNewDevice supply st info rp now hInv
                    intro k d hmem
                    simp only [applyOp, registerDevice, h1, h2, if_neg h0, h3] at hmem
                    exact h4 _ _ hmem
          | none =>
              have h4 := registryInv_registerNewDevice supply st info rp now hInv
              intro k d hmem
              simp only [applyOp, registerDevice, h1, h2] at hmem
              exact h4 _ _ hmem
  | connect did cid now =>
      cases h1 : mapLookup st.devices did with
      | none =>
          intro k d hmem
          simp only [applyOp, connectDevice, h1] at hmem
          exact hInv _ _ hmem
      | some device =>
          intro k d hmem
          simp only [applyOp, connectDevice, h1] at hmem
          rcases mem_of_mem_mapSet hmem with h | ⟨_, h⟩
          · exact hInv _ _ h
          · rw [h]
            simpa [authPairedInv] using hInv _ _ (mem_of_mapLookup_some h1)
  | disconnect did now =>
      cases h1 : mapLookup st.devices did with
      | none =>
          intro k d hmem
          simp only [applyOp, disconnectDevice, h1] at hmem
          exact hInv _ _ hmem
      | some device =>
          intro k d hmem
          simp only [applyOp, disconnectDevice, h1] at hmem
          rcases mem_of_mem_mapSet hmem with h | ⟨_, h⟩
          · exact hInv _ _ h
          · rw [h]
            simpa [authPairedInv] using hInv _ _ (mem_of_mapLookup_some h1)
  | pair did tok now =>
      cases h1 : mapLookup st.devices did with
      | none =>
          intro k d hmem
          simp only [applyOp, pairDevice, h1] at hmem
          exact hInv _ _ hmem
      | some device =>
          cases hpt : device.pairingToken with
          | none =>
              intro k d hmem
              simp only [applyOp, pairDevice, hpt, h1] at hmem
              exact hInv _ _ hmem
          | some pt =>
              by_cases h2 : pt = ""
              · intro k d hmem
                simp [applyOp, pairDevice, h1, hpt, h2] at hmem
                exact hInv _ _ hmem
              · by_cases h3 : pt ≠ tok
                · intro k d hmem
                  simp [applyOp, pairDevice, h1, hpt, h2, h3] at hmem
                  exact hInv _ _ hmem
                · by_cases h4 : pairingExpired device.pairingExpiration now = true
                  · intro k d hmem
                    simp [applyOp, pairDevice, h1, hpt, h2, h3, h4] at hmem
                    exact hInv _ _ hmem
                  · intro k d hmem
                    simp [applyOp, pairDevice, h1, hpt, h2, h3, h4] at hmem
                    rcases mem_of_mem_mapSet hmem with h | ⟨_, h⟩
                    · exact hInv _ _ h
                    · rw [h]
                      simp [authPairedInv, hsup st.rng]
  | unpair did now =>
      cases h1 : mapLookup st.devices did with
      | none =>
          intro k d hmem
          simp only [applyOp, unpairDevice, h1] at hmem
          exact hInv _ _ hmem
      | some device =>
          intro k d hmem
          simp only [applyOp, unpairDevice, h1] at hmem
          rcases mem_of_mem_mapSet hmem with h | ⟨_, h⟩
          · exact hInv _ _ h
          · rw [h]
            simp [authPairedInv]
  | remove did => exact registryInv_removeDevice st did hInv
  | touch did now =>
      cases h1 : mapLookup st.devices did with
      | none =>
          intro k d hmem
          simp only [applyOp, updateDeviceLastSeen, h1] at hmem
          exact hInv _ _ hmem
      | some device =>
          intro k d hmem
          simp only [applyOp, updateDeviceLastSeen, h1] at hmem
          rcases mem_of_mem_mapSet hmem with h | ⟨_, h⟩
          · exact hInv _ _ h
          · rw [h]
            simpa [authPairedInv] using hInv _ _ (mem_of_mapLookup_some h1)
  | cleanup maxAge now =>
      simp only [applyOp, cleanupOldDevices]
      exact registryInv_cleanupFold _ _ hInv

/-- Claim C6: in every registry state reachable by any sequence of
registerDevice, connectDevice, disconnectDevice, pairDevice, unpairDevice,
removeDevice, updateDeviceLastSeen and cleanupOldDevices calls, every record
has a non-empty authToken exactly when its paired flag is set. -/
theorem registry_auth_iff_paired :
    ∀ (supply : Nat → String), (∀ n, supply n ≠ "") →
      ∀ ops : List RegistryOp, registryInv (runOps supply ops) := by
  intro supply hsup ops
  have hgen : ∀ st : DeviceRegistry, registryInv st →
      registryInv (ops.foldl (applyOp supply) st) := by
    induction ops with
    | nil => intro st h; exact h
    | cons op rest ih =>
        intro st h
        exact ih _ (applyOp_preserves_registryInv supply hsup st op h)
  refine hgen initialRegistry ?_
  intro k d h
  simp [initialRegistry] at h

/-- Witness for C6 on the concrete call sequence register → connect → pair →
disconnect with the deterministic token supply. -/
theorem registry_auth_iff_paired_witness :
    registryInv (runOps sup0 pairedThenDisconnectedOps) :=
  registry_auth_iff_paired sup0 sup0_ne_empty pairedThenDisconnectedOps

/-- Claim C7: on an unexpected session end with auto-reconnect on, the client
schedules one pending timer whose delay for attempt N (counter value N-1)
is min(1000·2^(N-1), 30000); the attempt counter increments when the timer
fires; and once the counter has reached the configured maximum, the firing
callback leaves no pending timer and reports the terminal give-up instead of
attempting to connect again. -/
theorem reconnect_backoff_properties :
    ∀ (st : ClientState) (N : Nat),
      (scheduleReconnect st).reconnectTimer
        = some (min (1000 * 2 ^ st.reconnectAttempts) 30000) ∧
      (st.reconnectAttempts = N - 1 → 1 ≤ N →
        (scheduleReconnect st).reconnectTimer
          = some (min (1000 * 2 ^ (N - 1)) 30000)) ∧
      (st.autoConnect = true → st.hasControllerInfo = true →
        (handleDisconnection st).reconnectTimer
          = some (min (1000 * 2 ^ st.reconnectAttempts) 30000) ∧
        (handleDisconnection st).status = ConnectionStatus.disconnected ∧
        (handleDisconnection st).heartbeatOn = false) ∧
      (∀ delay, st.reconnectTimer = some delay →
        (fireReconnectTimer st).1.reconnectAttempts = st.reconnectAttempts + 1) ∧
      (∀ delay, st.reconnectTimer = some delay →
        st.maxReconnectAttempts ≤ st.reconnectAttempts →
        (fireReconnectTimer st).1.reconnectTimer = none ∧
        (fireReconnectTimer st).2 = some ReconnectAction.gaveUp ∧
        (fireReconnectTimer st).2 ≠ some ReconnectAction.attemptConnect) := by
  intro st N
  refine ⟨rfl, ?_, ?_, ?_, ?_⟩
  · intro h hN
    simp [scheduleReconnect, h]
  · intro hAuto hCtl
    simp [handleDisconnection, hAuto, hCtl, scheduleReconnect]
  · intro delay h
    by_cases hc : st.reconnectAttempts + 1 > st.maxReconnectAttempts
    · simp [fireReconnectTimer, h, hc]
    · by_cases hc2 : st.hasControllerInfo = true <;>
        simp [fireReconnectTimer, h, hc, hc2]
  · intro delay h hmax
    have hgt : st.reconnectAttempts + 1 > st.maxReconnectAttempts :=
      Nat.lt_succ_of_le hmax
    simp [fireReconnectTimer, h, hgt]

/-- Witness for C7: the client at its maximum attempt count fires its pending
timer, ends with no pending timer, and reports the terminal give-up. -/
theorem reconnect_backoff_properties_witness :
    (fireReconnectTimer clientAtMax).1.reconnectTimer = none ∧
    (fireReconnectTimer clientAtMax).2 = some ReconnectAction.gaveUp := by
  have h := (reconnect_backoff_properties clientAtMax 11).2.2.2.2 30000 rfl (by decide)
  exact ⟨h.1, h.2.1⟩

/-- Claim C8 counterexample: d1 registers at ip A, re-registers (same id) at
ip B — a by-id update that does not refresh the ip index — and then a fresh id
d2 registers at ip B. d2's ip matches the existing record d1's current ip, yet
no migration happens: a second registry entry is created. -/
theorem registerDevice_duplicate_for_unindexed_ip :
    (getDeviceById regAfterIpChange "d1").map (fun d => d.deviceInfo.ip) = some "B" ∧
    getDeviceById regAfterIpChange "d2" = none ∧
    regWithDuplicate.devices.length = 2 ∧
    (getDeviceById regWithDuplicate "d1").isSome = true ∧
    (getDeviceById regWithDuplicate "d2").isSome = true := by
  decide

/-- Claim C8 (amended): registerDevice is an idempotent upsert keyed primarily
by id — a same-id call updates the entry in place (key set unchanged, still
exactly one entry for the id) and refreshes lastSeen to the call time
(non-decreasing whenever the clock is); a new-id call whose ip or mac is found
in the registry's ip→id / mac→id index — provided that indexed id is truthy
(the source guards migration with `if (existingId && devices.has(existingId))`,
so an empty-string id is skipped) — migrates that indexed record to the new
id, deleting the old key and touching no other entry — the index, not the
record's current ip/mac, decides migration. -/
theorem registerDevice_upsert_and_index_migration :
    ∀ (supply : Nat → String) (st : DeviceRegistry) (info : DeviceInfo)
      (rp : Bool) (now : Nat),
      (∀ d0, mapLookup st.devices info.id = some d0 →
        (registerDevice supply st info rp now).2.devices.map Prod.fst
          = st.devices.map Prod.fst ∧
        mapLookup (registerDevice supply st info rp now).2.devices info.id
          = some (registerDevice supply st info rp now).1 ∧
        (registerDevice supply st info rp now).1.lastSeen = now ∧
        (d0.lastSeen ≤ now →
          d0.lastSeen ≤ (registerDevice supply st info rp now).1.lastSeen)) ∧
      (∀ eid d0, mapLookup st.devices info.id = none →
        lookupExistingId st info = some eid → eid ≠ "" →
        mapLookup st.devices eid = some d0 →
        mapLookup (registerDevice supply st info rp now).2.devices eid = none ∧
        mapLookup (registerDevice supply st info rp now).2.devices info.id
          = some (registerDevice supply st info rp now).1 ∧
        (∀ k, k ≠ eid → k ≠ info.id →
          mapLookup (registerDevice supply st info rp now).2.devices k
            = mapLookup st.devices k)) := by
  intro supply st info rp now
  constructor
  · intro d0 h1
    refine ⟨?_, registerDevice_lookup_self supply st info rp now, ?_, ?_⟩
    · simp only [registerDevice, h1]
      exact mapSet_keys_of_mem _ _ _ (by simp [h1])
    · simp [registerDevice, h1]
    · intro hle
      simp [registerDevice, h1]
      exact hle
  · intro eid d0 h1 h2 h0 h3
    have hne : eid ≠ info.id := by
      intro he
      rw [he, h1] at h3
      exact Option.noConfusion h3
    refine ⟨?_, registerDevice_lookup_self supply st info rp now, ?_⟩
    · simp only [registerDevice, h1, h2, if_neg h0, h3]
      rw [mapLookup_mapSet_ne _ _ _ _ hne, mapLookup_mapDelete_self]
    · intro k hk1 hk2
      simp only [registerDevice, h1, h2, if_neg h0, h3]
      rw [mapLookup_mapSet_ne _ _ _ _ hk2, mapLookup_mapDelete_ne _ _ _ hk1]

/-- Witness for the amended C8 theorem: a same-id re-registration of d1 on the
concrete registry keeps a single entry and refreshes lastSeen. -/
theorem registerDevice_upsert_witness :
    mapLookup (registerDevice sup0 regAfterIpChange infoD1A true 5).2.devices "d1"
      = some (registerDevice sup0 regAfterIpChange infoD1A true 5).1 ∧
    (registerDevice sup0 regAfterIpChange infoD1A true 5).1.lastSeen = 5 := by
  cases hl : mapLookup regAfterIpChange.devices "d1" with
  | none => exact absurd hl (by decide)
  | some d0 =>
      have h := (registerDevice_upsert_and_index_migration sup0 regAfterIpChange
        infoD1A true 5).1 d0 hl
      exact ⟨h.2.1, h.2.2.1⟩

/-- Claim C9: validateMessage accepts exactly when type, version and timestamp
are present and truthy and the sender carries a truthy id and a type in the
controller/target enum; each rejection cites the first violated check group in
source order (non-object; missing envelope fields, the sender's presence being
part of that first group; missing sender fields; invalid sender type). -/
theorem validateMessage_characterization :
    (validateMessage none
      = { valid := false, error := some "Message must be an object" }) ∧
    (∀ m, (validateMessage (some m)).valid = true ↔
      (strTruthy m.type = true ∧ strTruthy m.version = true ∧
       natTruthy m.timestamp = true ∧
       ∃ s, m.sender = some s ∧ strTruthy s.id = true ∧
         (s.type = some "controller" ∨ s.type = some "target"))) ∧
    (∀ m, (strTruthy m.type = false ∨ strTruthy m.version = false ∨
        natTruthy m.timestamp = false ∨ m.sender = none) →
      validateMessage (some m)
        = { valid := false, error := some "Message missing required fields" }) ∧
    (∀ m s, m.sender = some s → strTruthy m.type = true → strTruthy m.version = true →
      natTruthy m.timestamp = true →
      (strTruthy s.id = false ∨ strTruthy s.type = false) →
      validateMessage (some m)
        = { valid := false, error := some "Sender missing required fields" }) ∧
    (∀ m s, m.sender = some s → strTruthy m.type = true → strTruthy m.version = true →
      natTruthy m.timestamp = true → strTruthy s.id = true → strTruthy s.type = true →
      s.type ≠ some "controller" → s.type ≠ some "target" →
      validateMessage (some m)
        = { valid := false, error := some "Invalid sender type" }) := by
  refine ⟨rfl, ?_, ?_, ?_, ?_⟩
  · intro m
    cases hs : m.sender with
    | none => simp [validateMessage, hs]
    | some s =>
        by_cases h1 : (strTruthy m.type && strTruthy m.version
            && natTruthy m.timestamp) = true
        · by_cases h2 : (strTruthy s.id && strTruthy s.type) = true
          · by_cases h3 : s.type = some "controller" ∨ s.type = some "target"
            · have h3' : ¬(¬s.type = some "controller" ∧ ¬s.type = some "target") := by
                tauto
              simp only [Bool.and_eq_true] at h1 h2
              simp [validateMessage, hs, h1.1.1, h1.1.2, h1.2, h2.1, h2.2, h3, h3']
            · have h3' : ¬s.type = some "controller" ∧ ¬s.type = some "target" := by
                tauto
              simp only [Bool.and_eq_true] at h1 h2
              simp [validateMessage, hs, h1.1.1, h1.1.2, h1.2, h2.1, h2.2, h3', h3]
          · have hb2 : (strTruthy s.id && strTruthy s.type) = false := by
              cases hx : (strTruthy s.id && strTruthy s.type) with
              | false => rfl
              | true => exact absurd hx h2
            simp only [Bool.and_eq_true] at h1
            have hrhs : ¬ (strTruthy s.id = true ∧
                (s.type = some "controller" ∨ s.type = some "target")) := by
              rintro ⟨hid, hor⟩
              rcases Bool.and_eq_false_iff.mp hb2 with h | h
              · rw [hid] at h
                exact absurd h (by decide)
              · rcases hor with ht | ht <;> rw [ht] at h <;> exact absurd h (by decide)
            simp [validateMessage, hs, h1.1.1, h1.1.2, h1.2, hb2, hrhs]
        · have hb1 : (strTruthy m.type && strTruthy m.version
              && natTruthy m.timestamp) = false := by
            cases hx : (strTruthy m.type && strTruthy m.version
                && natTruthy m.timestamp) with
            | false => rfl
            | true => exact absurd hx h1
          have hrhs : ¬ (strTruthy m.type = true ∧ strTruthy m.version = true ∧
              natTruthy m.timestamp = true) := by
            rintro ⟨ha, hb, hc⟩
            exact h1 (by simp [ha, hb, hc])
          simp only [validateMessage, hs, hb1]
          constructor
          · intro h
            simp at h
          · rintro ⟨ha, hb, hc, _⟩
            exact absurd ⟨ha, hb, hc⟩ hrhs
  · intro m hdisj
    cases hs : m.sender with
    | none => simp [validateMessage, hs]
    | some s =>
        have hc : (strTruthy m.type && strTruthy m.version
            && natTruthy m.timestamp) = false := by
          rcases hdisj with h | h | h | h
          · simp [h]
          · simp [h]
          · simp [h]
          · simp [h] at hs
        simp [validateMessage, hs, hc]
  · intro m s hs h1 h2 h3 hdisj
    have hg1 : (strTruthy m.type && strTruthy m.version
        && natTruthy m.timestamp) = true := by simp [h1, h2, h3]
    have hg2 : (strTruthy s.id && strTruthy s.type) = false := by
      rcases hdisj with h | h <;> simp [h]
    simp [validateMessage, hs, hg1, hg2]
  · intro m s hs h1 h2 h3 h4 h5 hne1 hne2
    have hg1 : (strTruthy m.type && strTruthy m.version
        && natTruthy m.timestamp) = true := by simp [h1, h2, h3]
    have hg2 : (strTruthy s.id && strTruthy s.type) = true := by simp [h4, h5]
    simp [validateMessage, hs, hg1, hg2, hne1, hne2]

/-- Witness for C9: a concrete message whose sender type is "banana" is
rejected citing the invalid sender type. -/
theorem validateMessage_characterization_witness :
    validateMessage (some rawBadSenderMsg)
      = { valid := false, error := some "Invalid sender type" } := by
  have h := validateMessage_characterization.2.2.2.2 rawBadSenderMsg
    { id := some "x", type := some "banana" }
    rfl (by decide) (by decide) (by decide) (by decide) (by decide)
    (by decide) (by decide)
  exact h

/-- Claim C10: getPairedDevices returns exactly the devices with the paired
flag set and status equal to paired; in particular a device that paired and
then disconnected stays paired but is excluded, as the concrete run
register → connect → pair → disconnect shows. -/
theorem getPairedDevices_characterization :
    (∀ (st : DeviceRegistry) (d : RegisteredDevice),
      d ∈ getPairedDevices st ↔
        (d ∈ getAllDevices st ∧ d.paired = true ∧
         d.status = ConnectionStatus.paired)) ∧
    ((getDeviceById (runOps sup0 pairedThenDisconnectedOps) "t1").map
        (fun d => (d.paired, d.status))
      = some (true, ConnectionStatus.disconnected) ∧
     getPairedDevices (runOps sup0 pairedThenDisconnectedOps) = []) := by
  refine ⟨?_, by decide, by decide⟩
  intro st d
  simp only [getPairedDevices, List.mem_filter, Bool.and_eq_true, decide_eq_true_eq]
